import Mathlib

/-!
Verification of the repository persistence layer (`src/repository/Repository.ts`).

The TypeScript source is shallowly embedded: entity objects become explicit
own/prototype property lists, driver calls become explicit operation values,
promise chains become sequential `Except` computations, and the recursive graph
collector `extractObjectsById` becomes a fuel-indexed function (the shared
mutable `entityWithIds` array is threaded as explicit state; the concurrent
promise resolution is sequentialized in relation order, which preserves the
membership and termination behaviour that the theorems below are about).
-/

namespace TypeormRepo

/-- Model of a JavaScript primitive value as stored in an entity property. -/
inductive JsVal where
  | undef
  | null
  | bool (b : Bool)
  | num (n : Int)
  | str (s : String)
deriving DecidableEq, Repr, Inhabited

/-- A JavaScript object: own properties plus a (flattened) prototype chain. -/
structure JsObject where
  own : List (String × JsVal) := []
  proto : List (String × JsVal) := []
deriving DecidableEq, Repr, Inhabited

/-- `entity.hasOwnProperty(k)`: looks only at own properties. -/
def hasOwnProperty (e : JsObject) (k : String) : Bool :=
  (e.own.lookup k).isSome

/-- `entity[k]`: own property first, then the prototype chain, else `undefined`. -/
def getProp (e : JsObject) (k : String) : JsVal :=
  match e.own.lookup k with
  | some v => v
  | none =>
    match e.proto.lookup k with
    | some v => v
    | none => JsVal.undef

/-- `entity[k] = v`: assignment always creates/overwrites an own property. -/
def setProp (e : JsObject) (k : String) (v : JsVal) : JsObject :=
  { e with own := (k, v) :: e.own }

/-- `RelationMetadata` fields consumed by `Repository` (metadata is an external
collaborator; only the fields the repository reads are modelled). -/
structure RelationMetadata where
  propertyName : String := ""
  name : String := ""
  relationType : String := ""
  isLazy : Bool := false
  isOwning : Bool := false
  inverseTarget : String := ""
  entityTableName : String := ""
  inverseEntityTableName : String := ""
  joinColumnReferencedColumnName : String := ""
  inverseRelationName : String := ""
  inverseJoinColumnReferencedColumnName : String := ""
  junctionTableName : String := ""
  junctionColumns : List String := []
deriving DecidableEq, Repr, Inhabited

/-- `relation.isManyToMany`. -/
def RelationMetadata.isManyToMany (r : RelationMetadata) : Bool :=
  r.relationType == "many-to-many"

/-- `relation.junctionEntityMetadata.columns[0].name`. -/
def junctionColumn0 (r : RelationMetadata) : String :=
  r.junctionColumns.getD 0 ""

/-- `relation.junctionEntityMetadata.columns[1].name`. -/
def junctionColumn1 (r : RelationMetadata) : String :=
  r.junctionColumns.getD 1 ""

/-- `EntityMetadata` fields consumed by `Repository`. -/
structure EntityMetadata where
  target : String := ""
  name : String := ""
  tableName : String := ""
  primaryColumnName : String := ""
  primaryColumnPropertyName : String := ""
  relations : List RelationMetadata := []
deriving DecidableEq, Repr, Inhabited

/-- `this.metadata.hasRelationWithPropertyName(propertyName)`. -/
def EntityMetadata.hasRelationWithPropertyName (m : EntityMetadata) (p : String) : Bool :=
  m.relations.any (fun r => r.propertyName == p)

/-- `this.metadata.findRelationWithPropertyName(propertyName)` (only called
after the `has` check succeeds, so the default is never reached on that path). -/
def EntityMetadata.findRelationWithPropertyName (m : EntityMetadata) (p : String) :
    RelationMetadata :=
  (m.relations.find? (fun r => r.propertyName == p)).getD default

/-- `Repository.hasId(entity)`: `!!entity && entity.hasOwnProperty(columnName)
&& entity[columnName] !== null && !== undefined && !== ""` where `columnName`
is `metadata.primaryColumn.propertyName`. -/
def hasId (m : EntityMetadata) (entity : Option JsObject) : Bool :=
  match entity with
  | none => false
  | some e =>
    hasOwnProperty e m.primaryColumnPropertyName &&
    getProp e m.primaryColumnPropertyName != JsVal.null &&
    getProp e m.primaryColumnPropertyName != JsVal.undef &&
    getProp e m.primaryColumnPropertyName != JsVal.str ""

/-- The database-load step of `Repository.persist`: `loadedDbEntity` starts as
`null` and is assigned the `preload` result only when `hasId` holds. `preload`
(an external query) is passed in as the value it would resolve to. -/
def persistLoadedDbEntity (m : EntityMetadata) (entity : JsObject)
    (preload : Option JsObject) : Option JsObject :=
  if hasId m (some entity) then preload else none

/-- Outcome of `Repository.remove`'s preparation of the caller's entity:
the mutated (caller-visible) object and the id later placed into the
removal plan's `entityWithId`. -/
structure RemovePrepared where
  mutatedEntity : JsObject
  planEntityId : JsVal
deriving Repr

/-- The entity-mutation step of `Repository.remove`: before the removal plan is
built the source executes `entityOrEntities[this.metadata.primaryColumn.name] =
undefined`, and only afterwards computes `getEntityId(entityOrEntities)` for the
plan (`getEntityId` is external metadata code, passed in as a function). -/
def removePrepare (m : EntityMetadata) (getEntityId : JsObject → JsVal)
    (entity : JsObject) : RemovePrepared :=
  let mutated := setProp entity m.primaryColumnName JsVal.undef
  { mutatedEntity := mutated, planEntityId := getEntityId mutated }

/-- A write issued to the driver / query builder. `deleteFrom` carries the
OR-combined conjunctions of column=value conditions built by `orWhere`. -/
inductive DriverOp where
  | insert (table : String) (values : List (String × Int))
  | update (table : String) (values : List (String × Int)) (conditions : List (String × Int))
  | deleteFrom (table : String) (orConditions : List (List (String × Int)))
deriving DecidableEq, Repr

/-- `Repository.setRelation(propertyName, entityId, relatedEntityId)`; a thrown
`Error` becomes `Except.error` carrying the message, a completed call returns
the driver writes it performed. -/
def setRelation (m : EntityMetadata) (propertyName : String)
    (entityId relatedEntityId : Int) : Except String (List DriverOp) :=
  if !(m.hasRelationWithPropertyName propertyName) then
    Except.error ("Relation " ++ propertyName ++ " was not found in the " ++ m.name ++ " entity.")
  else
    let relation := m.findRelationWithPropertyName propertyName
    if relation.isManyToMany then
      Except.error "Many-to-many relation is not supported for this operation. Use #addToRelation method for many-to-many relations."
    else if relation.isOwning then
      Except.ok [DriverOp.update relation.entityTableName
        [(relation.name, relatedEntityId)]
        [(relation.joinColumnReferencedColumnName, entityId)]]
    else
      Except.ok [DriverOp.update relation.inverseEntityTableName
        [(relation.inverseRelationName, relatedEntityId)]
        [(relation.inverseJoinColumnReferencedColumnName, entityId)]]

/-- `Repository.setInverseRelation(propertyName, relatedEntityId, entityId)`. -/
def setInverseRelation (m : EntityMetadata) (propertyName : String)
    (relatedEntityId entityId : Int) : Except String (List DriverOp) :=
  if !(m.hasRelationWithPropertyName propertyName) then
    Except.error ("Relation " ++ propertyName ++ " was not found in the " ++ m.name ++ " entity.")
  else
    let relation := m.findRelationWithPropertyName propertyName
    if relation.isManyToMany then
      Except.error "Many-to-many relation is not supported for this operation. Use #addToRelation method for many-to-many relations."
    else if relation.isOwning then
      Except.ok [DriverOp.update relation.inverseEntityTableName
        [(relation.inverseRelationName, relatedEntityId)]
        [(relation.inverseJoinColumnReferencedColumnName, entityId)]]
    else
      Except.ok [DriverOp.update relation.entityTableName
        [(relation.name, relatedEntityId)]
        [(relation.joinColumnReferencedColumnName, entityId)]]

/-- `Repository.addToRelation(propertyName, entityId, relatedEntityIds)`:
one junction-table insert per related id. -/
def addToRelation (m : EntityMetadata) (propertyName : String) (entityId : Int)
    (relatedEntityIds : List Int) : Except String (List DriverOp) :=
  if !(m.hasRelationWithPropertyName propertyName) then
    Except.error ("Relation " ++ propertyName ++ " was not found in the " ++ m.name ++ " entity.")
  else
    let relation := m.findRelationWithPropertyName propertyName
    if !relation.isManyToMany then
      Except.error ("Only many-to-many relation supported for this operation. However " ++
        m.name ++ "#" ++ propertyName ++ " relation type is " ++ relation.relationType)
    else
      Except.ok (relatedEntityIds.map (fun relatedEntityId =>
        if relation.isOwning then
          DriverOp.insert relation.junctionTableName
            [(junctionColumn0 relation, entityId), (junctionColumn1 relation, relatedEntityId)]
        else
          DriverOp.insert relation.junctionTableName
            [(junctionColumn1 relation, entityId), (junctionColumn0 relation, relatedEntityId)]))

/-- `Repository.removeFromRelation(propertyName, entityId, relatedEntityIds)`;
`none` models a `null`/`undefined` id list. A non-empty list yields one delete
query whose OR-clauses pair the owning-side column with `entityId` and the
other column with each related id. -/
def removeFromRelation (m : EntityMetadata) (propertyName : String) (entityId : Int)
    (relatedEntityIds : Option (List Int)) : Except String (List DriverOp) :=
  if !(m.hasRelationWithPropertyName propertyName) then
    Except.error ("Relation " ++ propertyName ++ " was not found in the " ++ m.name ++ " entity.")
  else
    let relation := m.findRelationWithPropertyName propertyName
    if !relation.isManyToMany then
      Except.error ("Only many-to-many relation supported for this operation. However " ++
        m.name ++ "#" ++ propertyName ++ " relation type is " ++ relation.relationType)
    else
      match relatedEntityIds with
      | none => Except.ok []
      | some [] => Except.ok []
      | some ids =>
        let firstColumnName :=
          if relation.isOwning then junctionColumn0 relation else junctionColumn1 relation
        let secondColumnName :=
          if relation.isOwning then junctionColumn1 relation else junctionColumn0 relation
        Except.ok [DriverOp.deleteFrom relation.junctionTableName
          (ids.map (fun relatedEntityId =>
            [(firstColumnName, entityId), (secondColumnName, relatedEntityId)]))]

/-- The driver calls `Repository.transaction` can make, each with the outcome
it would resolve or reject with. -/
structure TxDriver (E A : Type) where
  begin : Except E Unit
  run : Except E A
  commit : Except E Unit
  rollback : Except E Unit

/-- Driver calls observable from `Repository.transaction`, in issue order. -/
inductive TxOp where
  | beginTransaction
  | runInTransaction
  | commitTransaction
  | rollbackTransaction
deriving DecidableEq, Repr

/-- The `catch` handler of `Repository.transaction`:
`this.driver.rollbackTransaction().then(() => { throw err; }).catch(() => { throw err; })`.
The `catch` callback ignores what it caught (the rollback failure) and rethrows
the original `err`. -/
def rollbackAndRethrow {E A : Type} (rollback : Except E Unit) (err : E) : Except E A :=
  match
    (match rollback with
     | Except.ok _ => (Except.error err : Except E A)
     | Except.error e => Except.error e) with
  | Except.ok v => Except.ok v
  | Except.error _ => Except.error err

/-- `Repository.transaction(runInTransaction)` as a promise chain over the
driver outcomes, returning the settled result and the driver calls made. -/
def transaction {E A : Type} (d : TxDriver E A) : Except E A × List TxOp :=
  match d.begin with
  | Except.error eb =>
    (rollbackAndRethrow d.rollback eb,
     [TxOp.beginTransaction, TxOp.rollbackTransaction])
  | Except.ok _ =>
    match d.run with
    | Except.error er =>
      (rollbackAndRethrow d.rollback er,
       [TxOp.beginTransaction, TxOp.runInTransaction, TxOp.rollbackTransaction])
    | Except.ok v =>
      match d.commit with
      | Except.error ec =>
        (rollbackAndRethrow d.rollback ec,
         [TxOp.beginTransaction, TxOp.runInTransaction, TxOp.commitTransaction,
          TxOp.rollbackTransaction])
      | Except.ok _ =>
        (Except.ok v, [TxOp.beginTransaction, TxOp.runInTransaction, TxOp.commitTransaction])

/-- `EntityWithId` from `persistment/operation/PersistOperation`: resolved row
id, entity type tag, and the object reference (modelled as a heap index). -/
structure EntityWithId where
  id : JsVal
  entityTarget : String
  entity : Nat
deriving DecidableEq, Repr, Inhabited

/-- `Repository.findNotLoadedIds(dbEntities, persistedEntities)`. The external
`repository.findOneById` point lookup (plus the read of the loaded entity's
primary column) is passed in as `findOneById : target → id → Option (idValue,
loadedReference)`; `none` models a lookup that found no row. -/
def findNotLoadedIds (findOneById : String → JsVal → Option (JsVal × Nat))
    (dbEntities persistedEntities : List EntityWithId) : List EntityWithId :=
  let missingDbEntities := persistedEntities
    |>.filter (fun e => e.id != JsVal.null && e.id != JsVal.undef)
    |>.filter (fun e => !(dbEntities.any (fun d =>
        d.entityTarget == e.entityTarget && d.id == e.id)))
    |>.filterMap (fun e => (findOneById e.entityTarget e.id).map
        (fun p => { id := p.1, entityTarget := e.entityTarget, entity := p.2 }))
  dbEntities ++ missingDbEntities

/-- The relation slot of an entity object as read by the graph collector:
absent/falsy, one related object, or an array of related objects. -/
inductive RelVal where
  | falsy
  | one (ref : Nat)
  | many (refs : List Nat)
deriving DecidableEq, Repr, Inhabited

/-- An entity object as seen by the graph collector: relation-slot properties
(keyed by property name, with lazy slots under their mangled key) and scalar
columns. -/
structure CollectObj where
  relProps : List (String × RelVal) := []
  cols : List (String × JsVal) := []
deriving DecidableEq, Repr, Inhabited

/-- The object heap plus the metadata registry: object references are heap
indices, metadata is keyed by entity target. -/
structure CollectCtx where
  heap : List CollectObj := []
  metas : List (String × EntityMetadata) := []
deriving Repr, Inhabited

/-- Metadata lookup by target tag. -/
def findMetaByTarget (ctx : CollectCtx) (target : String) : EntityMetadata :=
  (ctx.metas.lookup target).getD default

/-- Dereference an object reference in the heap. -/
def getObj (ctx : CollectCtx) (ref : Nat) : CollectObj :=
  ctx.heap.getD ref default

/-- The property the collector reads for a relation:
`relation.isLazy ? entity["__" + propertyName + "__"] : entity[propertyName]`. -/
def relationKey (r : RelationMetadata) : String :=
  if r.isLazy then "__" ++ r.propertyName ++ "__" else r.propertyName

/-- Read a relation slot off an entity object (absent property is falsy). -/
def relValue (obj : CollectObj) (r : RelationMetadata) : RelVal :=
  (obj.relProps.lookup (relationKey r)).getD RelVal.falsy

/-- Read a scalar column (`entity[metadata.primaryColumn.name]`). -/
def colValue (obj : CollectObj) (c : String) : JsVal :=
  (obj.cols.lookup c).getD JsVal.undef

/-- Walk the elements of an array-valued relation in order, threading the
collection state through the collector callback `f`. -/
def foldRefs (f : Nat → String → List EntityWithId → Option (List EntityWithId))
    (target : String) :
    List Nat → List EntityWithId → Option (List EntityWithId)
  | [], acc => some acc
  | r :: rs, acc =>
    match f r target acc with
    | none => none
    | some acc2 => foldRefs f target rs acc2

/-- Walk `metadata.relations` in order: skip falsy values, recurse (via `f`)
into a single related object or into each element of an array value. -/
def foldRels (f : Nat → String → List EntityWithId → Option (List EntityWithId))
    (obj : CollectObj) :
    List RelationMetadata → List EntityWithId → Option (List EntityWithId)
  | [], acc => some acc
  | rel :: rest, acc =>
    match relValue obj rel with
    | RelVal.falsy => foldRels f obj rest acc
    | RelVal.one r =>
      match f r rel.inverseTarget acc with
      | none => none
      | some acc2 => foldRels f obj rest acc2
    | RelVal.many rs =>
      match foldRefs f rel.inverseTarget rs acc with
      | none => none
      | some acc2 => foldRels f obj rest acc2

/-- `Repository.extractObjectsById(entity, metadata, entityWithIds)`: first
recurse through every relation value, and only afterwards (in the `.then`
continuation) check `entityWithIds.find(e => e.entity === entity)` and push the
entry. `fuel` bounds the recursion depth: a `none` result means the recursion
exceeded every finite depth bound at that fuel. -/
def extractObjectsById (ctx : CollectCtx) :
    Nat → Nat → String → List EntityWithId → Option (List EntityWithId)
  | 0, _, _, _ => none
  | Nat.succ fuel, ref, target, acc =>
    let metadata := findMetaByTarget ctx target
    let obj := getObj ctx ref
    match foldRels (extractObjectsById ctx fuel) obj metadata.relations acc with
    | none => none
    | some acc2 =>
      if acc2.any (fun e => e.entity == ref) then some acc2
      else some (acc2 ++ [{ id := colValue obj metadata.primaryColumnName,
                            entityTarget := metadata.target, entity := ref }])

/-- Substring test used to state what an error message does or does not name:
does the first list occur as a contiguous run inside the second. -/
def charsLeadMatch : List Char → List Char → Bool
  | [], _ => true
  | _ :: _, [] => false
  | a :: as, b :: bs => a == b && charsLeadMatch as bs

/-- Does `needle` occur contiguously anywhere in `hay`. -/
def charsContain (needle : List Char) : List Char → Bool
  | [] => charsLeadMatch needle []
  | b :: bs => charsLeadMatch needle (b :: bs) || charsContain needle bs

/-- Does string `needle` occur inside string `hay`. -/
def strContains (needle hay : String) : Bool :=
  charsContain needle.toList hay.toList

/-- The result list extends the incoming accumulator and preserves
duplicate-freedom of the recorded object references. -/
def extStep (acc l : List TypeormRepo.EntityWithId) : Prop :=
  (∃ s, l = acc ++ s) ∧
  (((acc.map (fun e => e.entity)).Nodup) → ((l.map (fun e => e.entity)).Nodup))

/-- Each distinct object reference is recorded at most once. -/
def nodupRefs (l : List TypeormRepo.EntityWithId) : Prop :=
  (l.map (fun e => e.entity)).Nodup

/-- Two collection entries clash on row identity: same entity target, same
non-null, non-undefined id. -/
def rowIdentityClash (a b : TypeormRepo.EntityWithId) : Bool :=
  a.entityTarget == b.entityTarget && a.id == b.id &&
  a.id != TypeormRepo.JsVal.null && a.id != TypeormRepo.JsVal.undef

/-- The row-identity keying property claimed of the collection result: no two
entries share the same entity target together with the same non-null,
non-undefined id. -/
def noDupRowIdentity : List TypeormRepo.EntityWithId → Bool
  | [] => true
  | a :: rest => rest.all (fun b => !(rowIdentityClash a b)) && noDupRowIdentity rest

/-- A many-to-many relation (`Post.categories`, owning side). -/
def categoriesRelation : RelationMetadata :=
  { propertyName := "categories", name := "categories",
    relationType := "many-to-many", isOwning := true,
    inverseTarget := "Category",
    junctionTableName := "post_categories",
    junctionColumns := ["postId", "categoryId"] }

/-- A many-to-one relation (`Post.author`, owning side). -/
def authorRelation : RelationMetadata :=
  { propertyName := "author", name := "authorId",
    relationType := "many-to-one", isOwning := true,
    inverseTarget := "Author",
    entityTableName := "post",
    joinColumnReferencedColumnName := "id" }

/-- Metadata of a `Post` entity with one many-to-many and one many-to-one
relation. -/
def postMetadata : EntityMetadata :=
  { target := "Post", name := "Post", tableName := "post",
    primaryColumnName := "id", primaryColumnPropertyName := "id",
    relations := [categoriesRelation, authorRelation] }

/-- A self-referencing relation on entity `A`. -/
def selfRelation : RelationMetadata :=
  { propertyName := "self", relationType := "one-to-one", inverseTarget := "A" }

/-- Metadata of the self-referencing entity `A`. -/
def selfRefMetadata : EntityMetadata :=
  { target := "A", name := "A", primaryColumnName := "id",
    relations := [selfRelation] }

/-- A one-object heap whose single entity references itself through its one
relation: the smallest cyclic object graph. -/
def cyclicCtx : CollectCtx :=
  { heap := [{ relProps := [("self", RelVal.one 0)], cols := [("id", JsVal.num 1)] }],
    metas := [("A", selfRefMetadata)] }

/-- Root metadata with two single-valued relations to entity type `B`. -/
def dupRootMetadata : EntityMetadata :=
  { target := "R", name := "R", primaryColumnName := "id",
    relations := [
      { propertyName := "a", relationType := "many-to-one", inverseTarget := "B" },
      { propertyName := "b", relationType := "many-to-one", inverseTarget := "B" }] }

/-- Metadata of leaf entity type `B`. -/
def dupLeafMetadata : EntityMetadata :=
  { target := "B", name := "B", primaryColumnName := "id", relations := [] }

/-- A heap where the root (reference 0) reaches two distinct objects
(references 1 and 2) of the same type `B` carrying the same row id `1`. -/
def dupCtx : CollectCtx :=
  { heap := [
      { relProps := [("a", RelVal.one 1), ("b", RelVal.one 2)],
        cols := [("id", JsVal.num 7)] },
      { relProps := [], cols := [("id", JsVal.num 1)] },
      { relProps := [], cols := [("id", JsVal.num 1)] }],
    metas := [("R", dupRootMetadata), ("B", dupLeafMetadata)] }

/-- The collection result on `dupCtx` (computed below). -/
def dupResult : List EntityWithId :=
  [{ id := JsVal.num 1, entityTarget := "B", entity := 1 },
   { id := JsVal.num 1, entityTarget := "B", entity := 2 },
   { id := JsVal.num 7, entityTarget := "R", entity := 0 }]

/-- A driver whose transaction body fails and whose rollback also fails. -/
def txFailBoth : TxDriver String Int :=
  { begin := Except.ok (), run := Except.error "opFailure",
    commit := Except.ok (), rollback := Except.error "rollbackFailure" }

/-- The same driver except that its rollback succeeds. -/
def txFailRun : TxDriver String Int :=
  { begin := Except.ok (), run := Except.error "opFailure",
    commit := Except.ok (), rollback := Except.ok () }

/-- A point-lookup oracle: only `(B, 2)` resolves, to a fresh object
reference 30 carrying id 2. -/
def sampleLookup : String → JsVal → Option (JsVal × Nat) :=
  fun target idv =>
    if target == "B" && idv == JsVal.num 2 then some (JsVal.num 2, 30) else none

/-- Already-loaded database-side entities. -/
def sampleDb : List EntityWithId :=
  [{ id := JsVal.num 1, entityTarget := "A", entity := 10 }]

/-- Requested entities, one of which has an id not present in `sampleDb`. -/
def samplePersisted : List EntityWithId :=
  [{ id := JsVal.num 2, entityTarget := "B", entity := 20 }]

/-- An entity whose id lives only on its prototype chain. -/
def protoIdEntity : JsObject :=
  { own := [("title", JsVal.str "hello")], proto := [("id", JsVal.num 5)] }

/-- An entity whose own id property holds `null`. -/
def nullIdEntity : JsObject :=
  { own := [("id", JsVal.null), ("title", JsVal.str "hello")], proto := [] }

/-- The `catch` handler always settles on the original error: the rollback
outcome (success or failure) is not reflected in the settled value. -/
theorem rollbackAndRethrow_eq_error {E A : Type} (rb : Except E Unit) (err : E) :
    (rollbackAndRethrow rb err : Except E A) = Except.error err := by
  cases rb <;> rfl

/-- C3: on a many-to-many relation, `removeFromRelation` with a null/undefined
or empty related-id list resolves immediately with zero junction-delete
operations. -/
theorem removeFromRelation_emptyList_noop (m : EntityMetadata) (p : String) (entityId : Int)
    (hp : m.hasRelationWithPropertyName p = true)
    (hmm : (m.findRelationWithPropertyName p).isManyToMany = true) :
    removeFromRelation m p entityId none = Except.ok [] ∧
    removeFromRelation m p entityId (some []) = Except.ok [] := by
  constructor <;> simp [removeFromRelation, hp, hmm]

/-- C3 witness: the no-op behaviour on the concrete `Post.categories`
many-to-many relation. -/
theorem removeFromRelation_emptyList_noop_witness :
    removeFromRelation postMetadata "categories" 1 none = Except.ok [] ∧
    removeFromRelation postMetadata "categories" 1 (some []) = Except.ok [] :=
  removeFromRelation_emptyList_noop postMetadata "categories" 1 (by decide) (by decide)

/-- C4 counterexample: with a failing transaction body and a failing rollback,
`transaction` settles on the original error alone — the result is identical to
the run where rollback succeeds, so the rollback failure is silently lost
rather than chained alongside the original error. -/
theorem transaction_rollbackFailure_swallowed :
    (transaction txFailBoth).1 = Except.error "opFailure" ∧
    transaction txFailBoth = transaction txFailRun ∧
    ("opFailure" : String) ≠ "rollbackFailure" := by
  refine ⟨rfl, rfl, ?_⟩
  decide

/-- C4 amended: a storage error after begin triggers rollback and the call
rejects with the original error; the rollback outcome never changes the
settled value (its own failure is discarded). -/
theorem transaction_run_error_rollback {E A : Type} (d : TxDriver E A) (er : E)
    (hb : d.begin = Except.ok ()) (hr : d.run = Except.error er) :
    transaction d = (Except.error er,
      [TxOp.beginTransaction, TxOp.runInTransaction, TxOp.rollbackTransaction]) := by
  simp [transaction, hb, hr, rollbackAndRethrow_eq_error]

/-- C4 witness: the amended behaviour at the concrete failing driver. -/
theorem transaction_run_error_rollback_witness :
    transaction txFailBoth = (Except.error "opFailure",
      [TxOp.beginTransaction, TxOp.runInTransaction, TxOp.rollbackTransaction]) :=
  transaction_run_error_rollback txFailBoth "opFailure" rfl rfl

/-- C5 counterexample: `setRelation` invoked on a many-to-many relation fails
with a fixed message that names neither the relation (`categories`) nor the
entity (`Post`). -/
theorem setRelation_manyToMany_error_names_nothing :
    setRelation postMetadata "categories" 1 2 =
      Except.error "Many-to-many relation is not supported for this operation. Use #addToRelation method for many-to-many relations." ∧
    strContains "categories"
      "Many-to-many relation is not supported for this operation. Use #addToRelation method for many-to-many relations." = false ∧
    strContains "Post"
      "Many-to-many relation is not supported for this operation. Use #addToRelation method for many-to-many relations." = false := by
  refine ⟨rfl, ?_, ?_⟩ <;> decide

/-- C5 amended: a relation-kind mismatch always fails with an error and
performs no write; the many-to-many-only operations report a message naming
both the entity and the relation, while the single-valued operations on a
many-to-many relation report a fixed message that names neither. -/
theorem relationKindMismatch_error_noWrite (m : EntityMetadata) (p : String)
    (entityId relatedEntityId : Int) (relatedEntityIds : List Int)
    (hp : m.hasRelationWithPropertyName p = true) :
    ((m.findRelationWithPropertyName p).isManyToMany = false →
      addToRelation m p entityId relatedEntityIds =
        Except.error ("Only many-to-many relation supported for this operation. However " ++
          m.name ++ "#" ++ p ++ " relation type is " ++
          (m.findRelationWithPropertyName p).relationType) ∧
      removeFromRelation m p entityId (some relatedEntityIds) =
        Except.error ("Only many-to-many relation supported for this operation. However " ++
          m.name ++ "#" ++ p ++ " relation type is " ++
          (m.findRelationWithPropertyName p).relationType)) ∧
    ((m.findRelationWithPropertyName p).isManyToMany = true →
      setRelation m p entityId relatedEntityId =
        Except.error "Many-to-many relation is not supported for this operation. Use #addToRelation method for many-to-many relations." ∧
      setInverseRelation m p relatedEntityId entityId =
        Except.error "Many-to-many relation is not supported for this operation. Use #addToRelation method for many-to-many relations.") := by
  constructor
  · intro h
    constructor <;> simp [addToRelation, removeFromRelation, hp, h]
  · intro h
    constructor <;> simp [setRelation, setInverseRelation, hp, h]

/-- C5 witness: both mismatch directions at the concrete `Post` metadata. -/
theorem relationKindMismatch_error_noWrite_witness :
    addToRelation postMetadata "author" 1 [2] =
      Except.error ("Only many-to-many relation supported for this operation. However " ++
        postMetadata.name ++ "#" ++ "author" ++ " relation type is " ++
        (postMetadata.findRelationWithPropertyName "author").relationType) ∧
    setRelation postMetadata "categories" 1 2 =
      Except.error "Many-to-many relation is not supported for this operation. Use #addToRelation method for many-to-many relations." :=
  ⟨((relationKindMismatch_error_noWrite postMetadata "author" 1 2 [2] (by decide)).1
      (by decide)).1,
   ((relationKindMismatch_error_noWrite postMetadata "categories" 1 2 [2] (by decide)).2
      (by decide)).1⟩

/-- C6: an entity whose identifier column is unset, null, undefined or the
empty string has no id, and `persist` then leaves `loadedDbEntity` null (a pure
insert); conversely a non-null `loadedDbEntity` can only arise when `hasId`
holds. -/
theorem hasId_false_skipsDbLoad (m : EntityMetadata) (e : JsObject)
    (preload : Option JsObject)
    (h : e.own.lookup m.primaryColumnPropertyName = none ∨
         e.own.lookup m.primaryColumnPropertyName = some JsVal.null ∨
         e.own.lookup m.primaryColumnPropertyName = some JsVal.undef ∨
         e.own.lookup m.primaryColumnPropertyName = some (JsVal.str "")) :
    hasId m (some e) = false ∧
    persistLoadedDbEntity m e preload = none ∧
    (∀ (m2 : EntityMetadata) (e2 : JsObject) (pre2 : Option JsObject),
      persistLoadedDbEntity m2 e2 pre2 ≠ none → hasId m2 (some e2) = true) := by
  have hfalse : hasId m (some e) = false := by
    rcases h with h | h | h | h <;> simp [hasId, hasOwnProperty, getProp, h]
  refine ⟨hfalse, by simp [persistLoadedDbEntity, hfalse], ?_⟩
  intro m2 e2 pre2 hne
  cases hh : hasId m2 (some e2) with
  | true => rfl
  | false => exact absurd (by simp [persistLoadedDbEntity, hh]) hne

/-- C6 witness: the pure-insert path at the concrete entity with a null id. -/
theorem hasId_false_skipsDbLoad_witness :
    hasId postMetadata (some nullIdEntity) = false ∧
    persistLoadedDbEntity postMetadata nullIdEntity (some nullIdEntity) = none :=
  ⟨(hasId_false_skipsDbLoad postMetadata nullIdEntity (some nullIdEntity) (by decide)).1,
   (hasId_false_skipsDbLoad postMetadata nullIdEntity (some nullIdEntity) (by decide)).2.1⟩

/-- C9: `remove` sets the caller's entity's primary-column property to
`undefined` (as an own property) before the removal plan is built, and the
plan's entity id is computed from the already-mutated object; if the primary
column's property name coincides with its column name the mutated object no
longer has an id. -/
theorem remove_mutates_identity (m : EntityMetadata) (getEntityId : JsObject → JsVal)
    (e : JsObject) :
    getProp (removePrepare m getEntityId e).mutatedEntity m.primaryColumnName = JsVal.undef ∧
    hasOwnProperty (removePrepare m getEntityId e).mutatedEntity m.primaryColumnName = true ∧
    (removePrepare m getEntityId e).planEntityId =
      getEntityId (removePrepare m getEntityId e).mutatedEntity ∧
    (m.primaryColumnName = m.primaryColumnPropertyName →
      hasId m (some (removePrepare m getEntityId e).mutatedEntity) = false) := by
  refine ⟨?_, ?_, rfl, ?_⟩
  · simp [removePrepare, setProp, getProp]
  · simp [removePrepare, setProp, hasOwnProperty]
  · intro hcol
    simp [removePrepare, setProp, hasId, hasOwnProperty, getProp, hcol.symm]

/-- C9 witness: the identity of a concrete entity is cleared by `remove`'s
preparation step. -/
theorem remove_mutates_identity_witness :
    getProp (removePrepare postMetadata (fun e2 => getProp e2 "id")
        nullIdEntity).mutatedEntity "id" = JsVal.undef ∧
    hasId postMetadata
      (some (removePrepare postMetadata (fun e2 => getProp e2 "id")
        nullIdEntity).mutatedEntity) = false :=
  ⟨(remove_mutates_identity postMetadata (fun e2 => getProp e2 "id") nullIdEntity).1,
   (remove_mutates_identity postMetadata (fun e2 => getProp e2 "id") nullIdEntity).2.2.2 rfl⟩

/-- C10: when the primary-column property is only on the prototype chain (with
a genuine identity value readable through `entity[column]`), `hasId` is false
and `persist` takes the pure-insert path. -/
theorem hasId_requires_ownProperty (m : EntityMetadata) (e : JsObject) (v : JsVal)
    (preload : Option JsObject)
    (hown : e.own.lookup m.primaryColumnPropertyName = none)
    (hproto : e.proto.lookup m.primaryColumnPropertyName = some v)
    (hv : v ≠ JsVal.null ∧ v ≠ JsVal.undef ∧ v ≠ JsVal.str "") :
    getProp e m.primaryColumnPropertyName = v ∧
    hasId m (some e) = false ∧
    persistLoadedDbEntity m e preload = none := by
  have hget : getProp e m.primaryColumnPropertyName = v := by
    simp [getProp, hown, hproto]
  have hfalse : hasId m (some e) = false := by
    simp [hasId, hasOwnProperty, hown]
  exact ⟨hget, hfalse, by simp [persistLoadedDbEntity, hfalse]⟩

/-- C10 witness: the concrete entity whose id lives on its prototype. -/
theorem hasId_requires_ownProperty_witness :
    getProp protoIdEntity "id" = JsVal.num 5 ∧
    hasId postMetadata (some protoIdEntity) = false ∧
    persistLoadedDbEntity postMetadata protoIdEntity (some protoIdEntity) = none :=
  hasId_requires_ownProperty postMetadata protoIdEntity (JsVal.num 5) (some protoIdEntity)
    (by decide) (by decide) (by decide)

/-- C8: every junction insert emitted by `addToRelation` targets the junction
table and assigns the owning-side identifier to the junction table's first
column: the owner's `entityId` when the relation is the owning side, the
related id when it is the inverse side (and the other id to the second
column). -/
theorem addToRelation_owningColumnFirst (m : EntityMetadata) (p : String) (entityId : Int)
    (relatedEntityIds : List Int) (ops : List DriverOp)
    (hp : m.hasRelationWithPropertyName p = true)
    (hmm : (m.findRelationWithPropertyName p).isManyToMany = true)
    (hcols : junctionColumn0 (m.findRelationWithPropertyName p) ≠
             junctionColumn1 (m.findRelationWithPropertyName p))
    (h : addToRelation m p entityId relatedEntityIds = Except.ok ops) :
    ops.length = relatedEntityIds.length ∧
    ∀ op ∈ ops, ∃ rid ∈ relatedEntityIds, ∃ values,
      op = DriverOp.insert (m.findRelationWithPropertyName p).junctionTableName values ∧
      values.lookup (junctionColumn0 (m.findRelationWithPropertyName p)) =
        some (if (m.findRelationWithPropertyName p).isOwning then entityId else rid) ∧
      values.lookup (junctionColumn1 (m.findRelationWithPropertyName p)) =
        some (if (m.findRelationWithPropertyName p).isOwning then rid else entityId) := by
  simp only [addToRelation, hp, hmm, Bool.not_true, Bool.false_eq_true, if_false,
    ite_false, Except.ok.injEq] at h
  subst h
  constructor
  · exact List.length_map _ _
  · intro op hop
    obtain ⟨rid, hrid, rfl⟩ := List.mem_map.1 hop
    have hb01 : (junctionColumn0 (m.findRelationWithPropertyName p) ==
        junctionColumn1 (m.findRelationWithPropertyName p)) = false :=
      beq_eq_false_iff_ne.2 hcols
    have hb10 : (junctionColumn1 (m.findRelationWithPropertyName p) ==
        junctionColumn0 (m.findRelationWithPropertyName p)) = false :=
      beq_eq_false_iff_ne.2 (Ne.symm hcols)
    cases ho : (m.findRelationWithPropertyName p).isOwning with
    | true =>
      refine ⟨rid, hrid,
        [(junctionColumn0 (m.findRelationWithPropertyName p), entityId),
         (junctionColumn1 (m.findRelationWithPropertyName p), rid)], ?_, ?_, ?_⟩
      · simp [ho]
      · simp [List.lookup]
      · simp [List.lookup, hb10]
    | false =>
      refine ⟨rid, hrid,
        [(junctionColumn1 (m.findRelationWithPropertyName p), entityId),
         (junctionColumn0 (m.findRelationWithPropertyName p), rid)], ?_, ?_, ?_⟩
      · simp [ho]
      · simp [List.lookup, hb01]
      · simp [List.lookup, ho]

/-- C8 witness: the concrete owning-side `Post.categories` insert writes the
owner id to `postId` (column 0) and the related id to `categoryId`. -/
theorem addToRelation_owningColumnFirst_witness :
    ([DriverOp.insert "post_categories" [("postId", (1 : Int)), ("categoryId", 10)]].length =
      [(10 : Int)].length) ∧
    (∀ op ∈ [DriverOp.insert "post_categories" [("postId", (1 : Int)), ("categoryId", 10)]],
      ∃ rid ∈ [(10 : Int)], ∃ values,
        op = DriverOp.insert
          (postMetadata.findRelationWithPropertyName "categories").junctionTableName values ∧
        values.lookup (junctionColumn0 (postMetadata.findRelationWithPropertyName "categories")) =
          some (if (postMetadata.findRelationWithPropertyName "categories").isOwning
            then 1 else rid) ∧
        values.lookup (junctionColumn1 (postMetadata.findRelationWithPropertyName "categories")) =
          some (if (postMetadata.findRelationWithPropertyName "categories").isOwning
            then rid else 1)) :=
  addToRelation_owningColumnFirst postMetadata "categories" 1 [10]
    [DriverOp.insert "post_categories" [("postId", 1), ("categoryId", 10)]]
    (by decide) (by decide) (by decide) rfl

/-- C7: `findNotLoadedIds` preserves every already-loaded db entity; every
requested entity with a non-null, non-undefined id and no (target, id)
counterpart among the db entities whose point lookup succeeds contributes its
wrapped loaded entity; and everything in the result beyond the db entities
stems from a successful point lookup (a lookup that returns nothing contributes
no entry). -/
theorem findNotLoadedIds_spec (findOneById : String → JsVal → Option (JsVal × Nat))
    (dbEntities persistedEntities : List EntityWithId) :
    (∀ d ∈ dbEntities, d ∈ findNotLoadedIds findOneById dbEntities persistedEntities) ∧
    (∀ e ∈ persistedEntities, ∀ (idv : JsVal) (ref : Nat),
      e.id ≠ JsVal.null → e.id ≠ JsVal.undef →
      (∀ d ∈ dbEntities, ¬(d.entityTarget = e.entityTarget ∧ d.id = e.id)) →
      findOneById e.entityTarget e.id = some (idv, ref) →
      ({ id := idv, entityTarget := e.entityTarget, entity := ref } : EntityWithId) ∈
        findNotLoadedIds findOneById dbEntities persistedEntities) ∧
    (∀ x ∈ findNotLoadedIds findOneById dbEntities persistedEntities,
      x ∈ dbEntities ∨ ∃ e ∈ persistedEntities, ∃ (idv : JsVal) (ref : Nat),
        findOneById e.entityTarget e.id = some (idv, ref) ∧
        x = { id := idv, entityTarget := e.entityTarget, entity := ref }) := by
  refine ⟨?_, ?_, ?_⟩
  · intro d hd
    simp only [findNotLoadedIds, List.mem_append]
    exact Or.inl hd
  · intro e he idv ref hnull hundef hnodb hfind
    simp only [findNotLoadedIds, List.mem_append, List.mem_filterMap, List.mem_filter]
    refine Or.inr ⟨e, ⟨⟨he, ?_⟩, ?_⟩, ?_⟩
    · simp [bne_iff_ne, hnull, hundef]
    · simp only [Bool.not_eq_true', List.any_eq_false]
      intro d hd
      simp only [Bool.and_eq_true, beq_iff_eq, not_and]
      intro h1 h2
      exact hnodb d hd ⟨h1, h2⟩
    · simp [hfind]
  · intro x hx
    simp only [findNotLoadedIds, List.mem_append, List.mem_filterMap, List.mem_filter] at hx
    rcases hx with hx | ⟨e, ⟨⟨⟨he, _⟩, _⟩, hmap⟩⟩
    · exact Or.inl hx
    · rcases Option.map_eq_some'.1 hmap with ⟨⟨idv, ref⟩, hfind, hxeq⟩
      exact Or.inr ⟨e, he, idv, ref, hfind, hxeq.symm⟩

/-- C7 witness: the on-demand lookup result for the concrete missing `(B, 2)`
entity is added to the database-side set. -/
theorem findNotLoadedIds_spec_witness :
    ({ id := JsVal.num 2, entityTarget := "B", entity := 30 } : EntityWithId) ∈
      findNotLoadedIds sampleLookup sampleDb samplePersisted :=
  (findNotLoadedIds_spec sampleLookup sampleDb samplePersisted).2.1
    { id := JsVal.num 2, entityTarget := "B", entity := 20 } (by decide)
    (JsVal.num 2) 30 (by decide) (by decide) (by decide) (by decide)

/-- `extStep` is reflexive. -/
theorem extStep_refl (acc : List EntityWithId) : extStep acc acc :=
  ⟨⟨[], by simp⟩, fun h => h⟩

/-- `extStep` composes. -/
theorem extStep_trans {a b c : List EntityWithId} (h1 : extStep a b) (h2 : extStep b c) :
    extStep a c := by
  obtain ⟨⟨s1, rfl⟩, n1⟩ := h1
  obtain ⟨⟨s2, rfl⟩, n2⟩ := h2
  exact ⟨⟨s1 ++ s2, by simp⟩, fun h => n2 (n1 h)⟩

/-- Walking an array-valued relation only extends the collection state and
preserves duplicate-freedom of recorded references, provided the collector
callback does. -/
theorem foldRefs_extStep
    (f : Nat → String → List EntityWithId → Option (List EntityWithId))
    (hf : ∀ (r : Nat) (t : String) (acc l : List EntityWithId),
      f r t acc = some l → extStep acc l) :
    ∀ (rs : List Nat) (target : String) (acc l : List EntityWithId),
      foldRefs f target rs acc = some l → extStep acc l := by
  intro rs
  induction rs with
  | nil =>
    intro t acc l h
    injection h with h
    subst h
    exact extStep_refl acc
  | cons r rest ih =>
    intro t acc l h
    simp only [foldRefs] at h
    cases hfa : f r t acc with
    | none => rw [hfa] at h; exact Option.noConfusion h
    | some acc2 =>
      rw [hfa] at h
      exact extStep_trans (hf r t acc acc2 hfa) (ih t acc2 l h)

/-- Walking the relation list only extends the collection state and preserves
duplicate-freedom of recorded references, provided the collector callback
does. -/
theorem foldRels_extStep
    (f : Nat → String → List EntityWithId → Option (List EntityWithId))
    (hf : ∀ (r : Nat) (t : String) (acc l : List EntityWithId),
      f r t acc = some l → extStep acc l) :
    ∀ (rels : List RelationMetadata) (obj : CollectObj) (acc l : List EntityWithId),
      foldRels f obj rels acc = some l → extStep acc l := by
  intro rels
  induction rels with
  | nil =>
    intro obj acc l h
    injection h with h
    subst h
    exact extStep_refl acc
  | cons rel rest ih =>
    intro obj acc l h
    cases hv : relValue obj rel with
    | falsy =>
      simp only [foldRels, hv] at h
      exact ih obj acc l h
    | one r =>
      simp only [foldRels, hv] at h
      cases hfa : f r rel.inverseTarget acc with
      | none => rw [hfa] at h; exact Option.noConfusion h
      | some acc2 =>
        rw [hfa] at h
        exact extStep_trans (hf r rel.inverseTarget acc acc2 hfa) (ih obj acc2 l h)
    | many rs =>
      simp only [foldRels, hv] at h
      cases hfa : foldRefs f rel.inverseTarget rs acc with
      | none => rw [hfa] at h; exact Option.noConfusion h
      | some acc2 =>
        rw [hfa] at h
        exact extStep_trans (foldRefs_extStep f hf rs rel.inverseTarget acc acc2 hfa)
          (ih obj acc2 l h)

/-- A completed collection run only extends the incoming `entityWithIds` state
and preserves duplicate-freedom of recorded object references: the push is
guarded by the reference-identity membership check. -/
theorem extractObjectsById_extStep (ctx : CollectCtx) :
    ∀ (fuel ref : Nat) (target : String) (acc l : List EntityWithId),
      extractObjectsById ctx fuel ref target acc = some l → extStep acc l := by
  intro fuel
  induction fuel with
  | zero =>
    intro ref target acc l h
    exact Option.noConfusion h
  | succ n ih =>
    intro ref target acc l h
    simp only [extractObjectsById] at h
    cases hfa : foldRels (extractObjectsById ctx n) (getObj ctx ref)
        (findMetaByTarget ctx target).relations acc with
    | none => simp [hfa] at h
    | some acc2 =>
      simp only [hfa] at h
      have step1 : extStep acc acc2 :=
        foldRels_extStep (extractObjectsById ctx n)
          (fun r t a l2 hl => ih r t a l2 hl)
          (findMetaByTarget ctx target).relations (getObj ctx ref) acc acc2 hfa
      by_cases hmem : acc2.any (fun e => e.entity == ref) = true
      · rw [if_pos hmem] at h
        injection h with h
        subst h
        exact step1
      · rw [if_neg hmem] at h
        injection h with h
        subst h
        have hnotin : ref ∉ acc2.map (fun e => e.entity) := by
          intro hin
          obtain ⟨e, he, heq⟩ := List.mem_map.1 hin
          exact hmem (List.any_eq_true.2 ⟨e, he, by simp [heq]⟩)
        refine extStep_trans step1 ⟨⟨_, rfl⟩, fun hnd => ?_⟩
        simp only [List.map_append, List.map_cons, List.map_nil]
        rw [List.nodup_append]
        refine ⟨hnd, List.nodup_singleton _, ?_⟩
        intro a ha hb
        simp only [List.mem_singleton] at hb
        subst hb
        exact hnotin ha

/-- C1: on the smallest cyclic object graph — a single entity whose relation
references itself — `extractObjectsById` exhausts every recursion-depth bound:
the reference-identity check sits in the post-recursion continuation, so the
already-visited object is re-walked and the collection never completes. -/
theorem extractObjectsById_selfReference_diverges :
    ∀ fuel : Nat, extractObjectsById cyclicCtx fuel 0 "A" [] = none := by
  intro fuel
  induction fuel with
  | zero => rfl
  | succ n ih =>
    have h1 : (findMetaByTarget cyclicCtx "A").relations = [selfRelation] := rfl
    have h2 : relValue (getObj cyclicCtx 0) selfRelation = RelVal.one 0 := rfl
    have h3 : selfRelation.inverseTarget = "A" := rfl
    simp only [extractObjectsById, h1, foldRels, h2, h3, ih]

/-- C2 counterexample: two distinct object references of the same entity type
carrying the same non-null row id are both recorded by the collection — the
dedup key is the object reference, not entity-type plus row identity. -/
theorem extractObjectsById_dup_row_identity :
    extractObjectsById dupCtx 2 0 "R" [] = some dupResult ∧
    noDupRowIdentity dupResult = false ∧
    ({ id := JsVal.num 1, entityTarget := "B", entity := 1 } : EntityWithId) ∈ dupResult ∧
    ({ id := JsVal.num 1, entityTarget := "B", entity := 2 } : EntityWithId) ∈ dupResult := by
  refine ⟨rfl, rfl, ?_, ?_⟩ <;> decide

/-- C2 amended: any completed collection run records each distinct object
reference at most once (deduplication is by reference identity; entries for
distinct references may still share entity type and row id). -/
theorem extractObjectsById_nodup_by_reference (ctx : CollectCtx) (fuel ref : Nat)
    (target : String) (l : List EntityWithId)
    (h : extractObjectsById ctx fuel ref target [] = some l) : nodupRefs l :=
  (extractObjectsById_extStep ctx fuel ref target [] l h).2 (by simp)

/-- C2 witness: the concrete completed run on `dupCtx` is duplicate-free by
object reference. -/
theorem extractObjectsById_nodup_by_reference_witness : nodupRefs dupResult :=
  extractObjectsById_nodup_by_reference dupCtx 2 0 "R" dupResult rfl

end TypeormRepo
